import Mathlib

/-!
Verification of the py_trees behaviour-tree fork (blackboard store, blackboard
check behaviours, test-injection decorator, coverage instrumentation) against
its natural-language specification.

Definitions are shallow embeddings of the Python sources:
* `blackboard2.py` — the permissioned key-value store (`Blackboard`) and its
  registration / set / get / unregister operations.
* `behaviours.py` — `CheckBlackboardVariable` / `WaitForBlackboardVariable`
  update, initialise and terminate hooks.
* `demos/test_demo.py` — `TestInjector` and `CoverageVisitor`.
Components of the repository not present under `src/` (the tick engine in
`behaviour.py` / `composites.py`, the `Status` / `ClearingPolicy` enums in
`common.py`, the plain `blackboard.py` client used by `behaviours.py`) are
modelled from the specification text; each carries a doc comment saying so.
-/

/-- Modelled from the spec (§2, common.py is not in src/): the closed 4-value
status lattice INVALID / RUNNING / SUCCESS / FAILURE. -/
inductive Status where
  | INVALID
  | RUNNING
  | SUCCESS
  | FAILURE
deriving DecidableEq, Repr

/-- Modelled from the spec (glossary, common.py is not in src/): when a cached
match result on a check-style behaviour is discarded — on initialise, on
success, or never. -/
inductive ClearingPolicy where
  | ON_INITIALISE
  | ON_SUCCESS
  | NEVER
deriving DecidableEq, Repr

/-! ## Blackboard (blackboard2.py) -/

/-- Per-key permission metadata (`KeyMetaData` in blackboard2.py): the list of
reader-client ids and the list of writer-client ids.  The Python lists may hold
duplicates; client ids are modelled as naturals. -/
structure KeyMetaData where
  read : List Nat
  write : List Nat
deriving DecidableEq, Repr

/-- A blackboard client (the per-client fields of `Blackboard.__init__` in
blackboard2.py): its unique identifier and its read / write key lists. -/
structure Client where
  unique_identifier : Nat
  read : List String
  write : List String
deriving DecidableEq, Repr

/-- Errors a blackboard2 operation can raise: `ValueError` (the permission
error) and `AttributeError` (the key-not-found error). -/
inductive BB2Error where
  | valueError
  | attributeError
deriving DecidableEq, Repr

/-- Pointwise update of a key→metadata map at one key. -/
def updateKey (f : KeyMetaData → KeyMetaData) (m : String → KeyMetaData)
    (key : String) : String → KeyMetaData :=
  fun x => if x = key then f (m key) else m x

/-- Registration side of `Blackboard.__init__` (blackboard2.py lines 160-174):
for each key of the client's read list, `metadata.setdefault(key, KeyMetaData())`
then append the client's unique identifier to that key's read list; likewise for
the write list.  The map is total with default `⟨[], []⟩`, which models
`setdefault`. -/
def Blackboard.register (uid : Nat) (read write : List String)
    (md : String → KeyMetaData) : String → KeyMetaData :=
  let md1 := read.foldl (updateKey fun d => { d with read := d.read ++ [uid] }) md
  write.foldl (updateKey fun d => { d with write := d.write ++ [uid] }) md1

/-- `Blackboard.__getattr__` (blackboard2.py lines 189-205): look the key up in
storage first — a missing key raises `AttributeError`; if present but the key is
not in the client's read list, raise `ValueError`; otherwise return the value. -/
def Blackboard.getattr {V : Type} (cl : Client) (storage : String → Option V)
    (name : String) : Except BB2Error V :=
  match storage name with
  | none => .error .attributeError
  | some v => if name ∈ cl.read then .ok v else .error .valueError

/-- `Blackboard.__setattr__` (blackboard2.py lines 176-187): raise `ValueError`
if the key is not in the client's write list, else write it to storage. -/
def Blackboard.setattr {V : Type} (cl : Client) (storage : String → Option V)
    (name : String) (value : V) : Except BB2Error (String → Option V) :=
  if name ∈ cl.write then
    .ok (fun k => if k = name then some value else storage k)
  else .error .valueError

/-- `Blackboard.set` (blackboard2.py lines 216-243): raise `ValueError` if the
key is not in the client's write list; if `overwrite` is false and the key is
already in storage, raise `AttributeError`; otherwise delegate to
`__setattr__` and return `true`. -/
def Blackboard.set {V : Type} (cl : Client) (storage : String → Option V)
    (name : String) (value : V) (overwrite : Bool) :
    Except BB2Error ((String → Option V) × Bool) :=
  if name ∈ cl.write then
    if ¬overwrite ∧ (storage name).isSome then .error .attributeError
    else (Blackboard.setattr cl storage name value).map (fun s => (s, true))
  else .error .valueError

/-- `Blackboard.get` (blackboard2.py lines 245-257): `return getattr(self, name)`,
i.e. delegates to `__getattr__`. -/
def Blackboard.getMethod {V : Type} (cl : Client) (storage : String → Option V)
    (name : String) : Except BB2Error V :=
  Blackboard.getattr cl storage name

/-- `Blackboard.unregister` (blackboard2.py lines 304-316): for each key of the
client's read list remove (first occurrence, Python `list.remove`) the client's
id from that key's read metadata; likewise for the write list; then, if `clear`,
for every key in the union of the read and write lists whose metadata retains no
reader and no writer, pop the key from storage. -/
def Blackboard.unregister {V : Type} (cl : Client) (md : String → KeyMetaData)
    (storage : String → Option V) (clear : Bool) :
    (String → KeyMetaData) × (String → Option V) :=
  let md1 := cl.read.foldl
    (updateKey fun d => { d with read := d.read.erase cl.unique_identifier }) md
  let md2 := cl.write.foldl
    (updateKey fun d => { d with write := d.write.erase cl.unique_identifier }) md1
  let storage' :=
    if clear then
      fun k =>
        if (k ∈ cl.read ∨ k ∈ cl.write) ∧ (md2 k).read = [] ∧ (md2 k).write = []
        then none else storage k
    else storage
  (md2, storage')

/-! ## CoverageVisitor (demos/test_demo.py lines 116-132) -/

/-- State of `CoverageVisitor`: `times_ticked` is a dict from node id to count
(absent = never ticked); `has_returned` is a dict whose keys are exactly
RUNNING, SUCCESS and FAILURE, each holding a set of node ids (modelled as a
boolean predicate).  The INVALID row of `hasReturned` is never populated
because INVALID is not a key of the Python dict. -/
structure CoverageVisitor where
  times_ticked : Nat → Option Nat
  hasReturned : Status → Nat → Bool

/-- `CoverageVisitor.run` (test_demo.py lines 126-132): increment the node's
tick count (starting it at 1 if absent); if the node's status is a key of
`has_returned` (i.e. is not INVALID), set `has_returned[status][id] = True`. -/
def CoverageVisitor.run (v : CoverageVisitor) (id : Nat) (status : Status) :
    CoverageVisitor :=
  let tt : Nat → Option Nat :=
    fun i => if i = id then some ((v.times_ticked id).getD 0 + 1)
             else v.times_ticked i
  let hr : Status → Nat → Bool :=
    if status = .INVALID then v.hasReturned
    else fun s i => if s = status ∧ i = id then true else v.hasReturned s i
  ⟨tt, hr⟩

/-- An empty coverage visitor (`CoverageVisitor.__init__`). -/
def CoverageVisitor.empty : CoverageVisitor :=
  ⟨fun _ => none, fun _ _ => false⟩

/-- Double registration of the same client id on the same key, as
`SetBlackboardVariable.initialise` (blackboard2.py lines 425-431) performs on
every activation: a fresh `Blackboard(..., unique_identifier=self.id,
write={variable_name})` is constructed each time. -/
def c9_metadata : String → KeyMetaData :=
  Blackboard.register 7 [] ["dummy"]
    (Blackboard.register 7 [] ["dummy"] (fun _ => ⟨[], []⟩))

/-- The doubly registered client of `c9_metadata`. -/
def c9_client : Client := ⟨7, [], ["dummy"]⟩

/-- Storage holding a value for the doubly registered key. -/
def c9_storage : String → Option Nat :=
  fun k => if k = "dummy" then some 42 else none

/-! ## CheckBlackboardVariable / WaitForBlackboardVariable (behaviours.py) -/

/-- Modelled from the spec (§4.4 and §7, blackboard.py is not in src/): the
errors of the client `get` used by behaviours.py — `PermissionError` when the
key is outside the client's read set, `KeyNotFound` (the Python `KeyError`
caught by the leaves) when the key is absent. -/
inductive BBError where
  | permissionError
  | keyNotFound
deriving DecidableEq, Repr

/-- Modelled from the spec (§4.4, blackboard.py is not in src/):
`get(client, key)` returns the stored value; fails `PermissionError` if the
key is not in the client's read set; fails `KeyNotFound` if it is absent. -/
def ClientBlackboard.get {V : Type} (read : List String)
    (storage : String → Option V) (key : String) : Except BBError V :=
  if key ∈ read then
    match storage key with
    | some v => .ok v
    | none => .error .keyNotFound
  else .error .permissionError

/-- State of `CheckBlackboardVariable` (behaviours.py lines 292-339): the split
variable name (top-level key plus dotted nested remainder, empty when there is
no dot), the client's read key list (`{variable_name}` on construction), the
optional expected value, the cached matching result and the clearing policy.
The comparison operator and the attribute getter for nested fields are passed
to `update` as parameters. -/
structure CheckBlackboardVariable (V : Type) where
  variable_name : String
  nested_name : String
  read : List String
  expected_value : Option V
  matching_result : Option Status
  clearing_policy : ClearingPolicy
deriving DecidableEq, Repr

/-- Construction of `CheckBlackboardVariable` (behaviours.py lines 321-339):
the dotted name is split, the top-level component becomes `variable_name` and
the client is registered with `read = {variable_name}`. -/
def CheckBlackboardVariable.make {V : Type} (name : String)
    (expected : Option V) (policy : ClearingPolicy) : CheckBlackboardVariable V :=
  let comps := name.splitOn "."
  { variable_name := comps.headD ""
    nested_name := String.intercalate "." comps.tail
    read := [comps.headD ""]
    expected_value := expected
    matching_result := none
    clearing_policy := policy }

/-- Caching tail of `CheckBlackboardVariable.update` (behaviours.py lines
398-401): clear the cache when the result is SUCCESS under policy ON_SUCCESS,
otherwise store the result (FAILURE included). -/
def CheckBlackboardVariable.cacheState {V : Type}
    (c : CheckBlackboardVariable V) (result : Status) : CheckBlackboardVariable V :=
  if result = .SUCCESS ∧ c.clearing_policy = .ON_SUCCESS then
    { c with matching_result := none }
  else { c with matching_result := some result }

/-- `CheckBlackboardVariable.update` (behaviours.py lines 350-402): return the
cached result if one is held; otherwise read the variable through the client
`get` — a `KeyNotFound` (also raised when the dotted sub-field walk fails) is
caught and mapped to FAILURE, while a `PermissionError` is not caught and
escapes; an existing value passes the existence check (expected value `none`)
with SUCCESS, or is compared against the expected value, SUCCESS on a match
and FAILURE otherwise; finally the result is cached per `cacheState`. -/
def CheckBlackboardVariable.update {V : Type} (cmp : V → V → Bool)
    (attrget : V → String → Option V) (storage : String → Option V)
    (c : CheckBlackboardVariable V) :
    Except BBError (Status × CheckBlackboardVariable V) :=
  match c.matching_result with
  | some r => .ok (r, c)
  | none =>
    match ClientBlackboard.get c.read storage c.variable_name with
    | .error .permissionError => .error .permissionError
    | .error .keyNotFound => .ok (.FAILURE, c.cacheState .FAILURE)
    | .ok v =>
      match (if c.nested_name = "" then some v else attrget v c.nested_name) with
      | none => .ok (.FAILURE, c.cacheState .FAILURE)
      | some v' =>
        match c.expected_value with
        | none => .ok (.SUCCESS, c.cacheState .SUCCESS)
        | some e =>
          if cmp v' e then .ok (.SUCCESS, c.cacheState .SUCCESS)
          else .ok (.FAILURE, c.cacheState .FAILURE)

/-- `CheckBlackboardVariable.initialise` (behaviours.py lines 341-348): clear
the cached result only under policy ON_INITIALISE. -/
def CheckBlackboardVariable.initialise {V : Type}
    (c : CheckBlackboardVariable V) : CheckBlackboardVariable V :=
  if c.clearing_policy = .ON_INITIALISE then { c with matching_result := none }
  else c

/-- `CheckBlackboardVariable.terminate` (behaviours.py lines 404-411): discard
the cached result when invalidated. -/
def CheckBlackboardVariable.terminate {V : Type} (new_status : Status)
    (c : CheckBlackboardVariable V) : CheckBlackboardVariable V :=
  if new_status = .INVALID then { c with matching_result := none } else c

/-- State of `WaitForBlackboardVariable` (behaviours.py lines 438-457), with
the same fields as `CheckBlackboardVariable`. -/
structure WaitForBlackboardVariable (V : Type) where
  variable_name : String
  nested_name : String
  read : List String
  expected_value : Option V
  matching_result : Option Status
  clearing_policy : ClearingPolicy
deriving DecidableEq, Repr

/-- Caching tail of `WaitForBlackboardVariable.update` (behaviours.py lines
506-509): clear on SUCCESS under ON_SUCCESS; cache any non-RUNNING result;
leave the cache alone on RUNNING. -/
def WaitForBlackboardVariable.cacheState {V : Type}
    (w : WaitForBlackboardVariable V) (result : Status) : WaitForBlackboardVariable V :=
  if result = .SUCCESS ∧ w.clearing_policy = .ON_SUCCESS then
    { w with matching_result := none }
  else if result ≠ .RUNNING then { w with matching_result := some result }
  else w

/-- `WaitForBlackboardVariable.update` (behaviours.py lines 469-510): as for
`CheckBlackboardVariable.update`, except that a missing variable or sub-field
and a failed comparison map to RUNNING instead of FAILURE. -/
def WaitForBlackboardVariable.update {V : Type} (cmp : V → V → Bool)
    (attrget : V → String → Option V) (storage : String → Option V)
    (w : WaitForBlackboardVariable V) :
    Except BBError (Status × WaitForBlackboardVariable V) :=
  match w.matching_result with
  | some r => .ok (r, w)
  | none =>
    match ClientBlackboard.get w.read storage w.variable_name with
    | .error .permissionError => .error .permissionError
    | .error .keyNotFound => .ok (.RUNNING, w.cacheState .RUNNING)
    | .ok v =>
      match (if w.nested_name = "" then some v else attrget v w.nested_name) with
      | none => .ok (.RUNNING, w.cacheState .RUNNING)
      | some v' =>
        match w.expected_value with
        | none => .ok (.SUCCESS, w.cacheState .SUCCESS)
        | some e =>
          if cmp v' e then .ok (.SUCCESS, w.cacheState .SUCCESS)
          else .ok (.RUNNING, w.cacheState .RUNNING)

/-- Value resolution performed inside the `try` block of both updates: the
top-level storage lookup followed by the dotted sub-field walk. -/
def resolveValue {V : Type} (attrget : V → String → Option V)
    (storage : String → Option V) (variable_name nested_name : String) : Option V :=
  match storage variable_name with
  | none => none
  | some v => if nested_name = "" then some v else attrget v nested_name

/-- A call made to a `CheckBlackboardVariable` node between ticks: an `update`
against the blackboard contents current at that tick, or an `initialise`. -/
inductive CheckCall (V : Type) where
  | update (storage : String → Option V)
  | initialise

/-- Runs a sequence of calls against a `CheckBlackboardVariable` node,
threading the node state (an uncaught error leaves the state unchanged). -/
def CheckBlackboardVariable.runCalls {V : Type} (cmp : V → V → Bool)
    (attrget : V → String → Option V) :
    List (CheckCall V) → CheckBlackboardVariable V → CheckBlackboardVariable V
  | [], c => c
  | .update storage :: rest, c =>
    CheckBlackboardVariable.runCalls cmp attrget rest
      (match CheckBlackboardVariable.update cmp attrget storage c with
       | .ok (_, c') => c'
       | .error _ => c)
  | .initialise :: rest, c =>
    CheckBlackboardVariable.runCalls cmp attrget rest c.initialise

/-! ## TestInjector (demos/test_demo.py) and the scenario Sequence -/

/-- A constant-status leaf (`behaviours.Success` / `Running` / `Failure`,
synthesized by `meta.create_behaviour_from_function`): `update` always returns
the fixed base status; `status` is the status stored by the last tick. -/
structure Leaf where
  base : Status
  status : Status
deriving DecidableEq, Repr

/-- Modelled from the spec (§4.1, behaviour.py is not in src/): a tick of a
constant leaf calls `update` once and stores the returned status; the
initialise and terminate hooks of these leaves have no observable effect. -/
def Leaf.tick (l : Leaf) : Leaf × Status :=
  ({ l with status := l.base }, l.base)

/-- State of the `TestInjector` decorator (test_demo.py lines 33-37) around a
child of type `χ`: the decorated child, the child's stored status, the
mutually exclusive `_fixed_override` / `_random_override` pair, and the
injector's own stored status.  The process-wide `ENABLE_TEST_INJECT`
blackboard flag is passed to the operations as an `Option Bool` (none while
never written). -/
structure Injector (χ : Type) where
  decorated : χ
  decoratedStatus : Status
  fixed_override : Option Status
  random_override : Bool
  status : Status
deriving DecidableEq, Repr

/-- `TestInjector.set_override` with a status argument (test_demo.py lines
39-45): install a fixed override and clear the random flag. -/
def TestInjector.set_override {χ : Type} (s : Status) (inj : Injector χ) :
    Injector χ :=
  { inj with fixed_override := some s, random_override := false }

/-- `TestInjector.override_enabled` (test_demo.py lines 65-77): read the
global `ENABLE_TEST_INJECT` flag (None while never set); return false unless
it is True; then the override is enabled iff a fixed override is installed or
the random flag is set.  Every `Status` enum member is truthy in Python, so
`if self._fixed_override` is an `isSome` test. -/
def TestInjector.override_enabled {χ : Type} (globalFlag : Option Bool)
    (inj : Injector χ) : Bool :=
  match globalFlag with
  | none => false
  | some g =>
    if g ≠ true then false
    else if inj.fixed_override.isSome then true
    else if inj.random_override then true
    else false

/-- `TestInjector.update` (test_demo.py lines 79-99): when the override is
enabled, return the fixed override status, or — in random mode — a fresh
uniform draw from SUCCESS / RUNNING / FAILURE, supplied here as the external
input `randDraw`; when disabled, return the decorated child's status. -/
def TestInjector.update {χ : Type} (globalFlag : Option Bool) (randDraw : Status)
    (inj : Injector χ) : Status :=
  if TestInjector.override_enabled globalFlag inj then
    match inj.fixed_override with
    | some s => s
    | none => randDraw
  else inj.decoratedStatus

/-- `TestInjector.tick` (test_demo.py lines 101-114) combined with the hook
rule modelled from the spec (§4.1 / §4.3, behaviour.py and decorators.py are
not in src/): when the override is enabled the injector ticks behaviour-style,
ignoring the child entirely; otherwise it ticks decorator-style — the child is
ticked first and the injector's `update` then derives the new status.  The
returned boolean records whether the child was ticked. -/
def TestInjector.tick {χ : Type} (globalFlag : Option Bool) (randDraw : Status)
    (childTick : χ → χ × Status) (inj : Injector χ) : Injector χ × Bool :=
  if TestInjector.override_enabled globalFlag inj then
    ({ inj with status := TestInjector.update globalFlag randDraw inj }, false)
  else
    let c := childTick inj.decorated
    let inj' := { inj with decorated := c.1, decoratedStatus := c.2 }
    ({ inj' with status := TestInjector.update globalFlag randDraw inj' }, true)

/-- A TestInjector around a constant leaf — one child of the C2 scenario
sequence. -/
abbrev InjNode := Injector Leaf

/-- A fresh injector-wrapped leaf with the given base status: all stored
statuses start INVALID (spec §8: status before the first tick is INVALID) and
no override is installed. -/
def InjNode.fresh (base : Status) : InjNode :=
  ⟨⟨base, .INVALID⟩, .INVALID, none, false, .INVALID⟩

/-- One tick of an injector-wrapped leaf, keeping only the node state. -/
def InjNode.tick1 (globalFlag : Option Bool) (randDraw : Status)
    (inj : InjNode) : InjNode :=
  (TestInjector.tick globalFlag randDraw Leaf.tick inj).1

/-- Iterated ticks of an injector-wrapped leaf under a fixed global flag. -/
def InjNode.tickN (globalFlag : Option Bool) (randDraw : Status) :
    Nat → InjNode → InjNode
  | 0, i => i
  | n + 1, i => InjNode.tickN globalFlag randDraw n (InjNode.tick1 globalFlag randDraw i)

/-- Invalidation performed by a failing Sequence, modelled from the spec
(§4.2, composites.py is not in src/): every later child that was RUNNING or
SUCCESS is terminated with INVALID (its stored status becomes INVALID). -/
def invalidateLater (rest : List InjNode) : List InjNode :=
  rest.map fun n =>
    if n.status = .RUNNING ∨ n.status = .SUCCESS then { n with status := .INVALID }
    else n

/-- Modelled from the spec (§4.2, composites.py is not in src/): the child
loop of a Sequence tick starting at child index `idx`.  Children are ticked
left to right; RUNNING stops the loop remembering the cursor; FAILURE stops
it, invalidates the later children and resets the cursor; SUCCESS continues;
an exhausted list yields SUCCESS with the cursor reset.  The log collects
`(index, returned status)` for every child the loop actually ran — a child
absent from the log was not ticked, hence neither was its wrapped leaf. -/
def seqChildren (globalFlag : Option Bool) (randDraw : Status) :
    Nat → List InjNode → List InjNode × Status × Nat × List (Nat × Status)
  | _, [] => ([], .SUCCESS, 0, [])
  | idx, n :: rest =>
    let t := TestInjector.tick globalFlag randDraw Leaf.tick n
    match t.1.status with
    | .RUNNING => (t.1 :: rest, .RUNNING, idx, [(idx, .RUNNING)])
    | .FAILURE => (t.1 :: invalidateLater rest, .FAILURE, 0, [(idx, .FAILURE)])
    | .SUCCESS =>
      let r := seqChildren globalFlag randDraw (idx + 1) rest
      (t.1 :: r.1, r.2.1, r.2.2.1, (idx, .SUCCESS) :: r.2.2.2)
    | .INVALID =>
      let r := seqChildren globalFlag randDraw (idx + 1) rest
      (t.1 :: r.1, r.2.1, r.2.2.1, (idx, .INVALID) :: r.2.2.2)

/-- State of the scenario Sequence: its injector children, the remembered
cursor and the stored status. -/
structure SeqState where
  leaves : List InjNode
  cursor : Nat
  status : Status
deriving DecidableEq, Repr

/-- Modelled from the spec (§4.2): one tick of the memory Sequence.  If the
stored status is not RUNNING the sequence re-initialises (cursor back to the
first child); children before the cursor are not re-ticked; `seqChildren`
runs over the rest.  Also returns the tick's `(index, status)` log. -/
def SeqState.tick (globalFlag : Option Bool) (randDraw : Status) (s : SeqState) :
    SeqState × List (Nat × Status) :=
  let start := if s.status = .RUNNING then s.cursor else 0
  let r := seqChildren globalFlag randDraw start (s.leaves.drop start)
  (⟨s.leaves.take start ++ r.1, r.2.2.1, r.2.1⟩, r.2.2.2)

/-- Iterated scenario ticks with a fixed global flag and random draw. -/
def SeqState.tickN (globalFlag : Option Bool) (randDraw : Status) :
    Nat → SeqState → SeqState
  | 0, s => s
  | n + 1, s => SeqState.tickN globalFlag randDraw n (SeqState.tick globalFlag randDraw s).1

/-- The C2 scenario start state (test_test.py lines 3-27): a Sequence of five
TestInjector-wrapped leaves with base statuses SUCCESS, SUCCESS, RUNNING,
FAILURE, SUCCESS. -/
def c2Start : SeqState :=
  ⟨[InjNode.fresh .SUCCESS, InjNode.fresh .SUCCESS, InjNode.fresh .RUNNING,
    InjNode.fresh .FAILURE, InjNode.fresh .SUCCESS], 0, .INVALID⟩

/-- The scenario state reached after any positive number of disabled ticks:
leaves 1-3 ticked (SUCCESS, SUCCESS, RUNNING), the sequence RUNNING with its
cursor blocked at leaf 3 (index 2), leaves 4 and 5 untouched. -/
def c2Blocked : SeqState :=
  ⟨[⟨⟨.SUCCESS, .SUCCESS⟩, .SUCCESS, none, false, .SUCCESS⟩,
    ⟨⟨.SUCCESS, .SUCCESS⟩, .SUCCESS, none, false, .SUCCESS⟩,
    ⟨⟨.RUNNING, .RUNNING⟩, .RUNNING, none, false, .RUNNING⟩,
    InjNode.fresh .FAILURE, InjNode.fresh .SUCCESS], 2, .RUNNING⟩

/-- The blocked scenario state after leaf 3's injector is overridden to
SUCCESS (`N3a.set_override(SUCCESS)`, test_test.py line 32). -/
def c2Overridden : SeqState :=
  { c2Blocked with leaves :=
      [⟨⟨.SUCCESS, .SUCCESS⟩, .SUCCESS, none, false, .SUCCESS⟩,
       ⟨⟨.SUCCESS, .SUCCESS⟩, .SUCCESS, none, false, .SUCCESS⟩,
       TestInjector.set_override .SUCCESS
         ⟨⟨.RUNNING, .RUNNING⟩, .RUNNING, none, false, .RUNNING⟩,
       InjNode.fresh .FAILURE, InjNode.fresh .SUCCESS] }

/-! ## Theorems -/

/-- Pointwise description of the metadata folds used by registration and
unregistration: over a duplicate-free key list, the fold applies `f` exactly at
the keys of the list and leaves every other key unchanged. -/
theorem foldl_updateKey_eq (f : KeyMetaData → KeyMetaData) :
    ∀ (L : List String) (md : String → KeyMetaData), L.Nodup →
      ∀ k, L.foldl (updateKey f) md k = if k ∈ L then f (md k) else md k := by
  intro L
  induction L with
  | nil => intro md _ k; simp
  | cons key rest ih =>
    intro md hnd k
    obtain ⟨hkey, hrest⟩ := List.nodup_cons.mp hnd
    have hstep : List.foldl (updateKey f) md (key :: rest)
        = List.foldl (updateKey f) (updateKey f md key) rest := rfl
    rw [hstep, ih _ hrest k]
    by_cases hk : k ∈ rest
    · have hne : k ≠ key := fun h => hkey (h ▸ hk)
      simp [updateKey, hk, hne, List.mem_cons]
    · by_cases hkk : k = key
      · subst hkk
        simp [updateKey, hk]
      · simp [updateKey, hk, hkk, List.mem_cons]

/-- Pointwise form of the metadata map after `unregister`: the client's id is
erased (first occurrence) from the read lists of its read keys and the write
lists of its write keys; everything else is unchanged. -/
theorem unregister_md_eq {V : Type} (cl : Client) (md : String → KeyMetaData)
    (storage : String → Option V) (clear : Bool)
    (hnr : cl.read.Nodup) (hnw : cl.write.Nodup) (k : String) :
    (Blackboard.unregister cl md storage clear).1 k =
      { read := if k ∈ cl.read then (md k).read.erase cl.unique_identifier
                else (md k).read,
        write := if k ∈ cl.write then (md k).write.erase cl.unique_identifier
                 else (md k).write } := by
  simp only [Blackboard.unregister]
  rw [foldl_updateKey_eq _ cl.write _ hnw k]
  rw [foldl_updateKey_eq _ cl.read md hnr k]
  by_cases hkw : k ∈ cl.write <;> by_cases hkr : k ∈ cl.read <;> simp [hkw, hkr]

/-- Pointwise form of the storage map after `unregister` with `clear = true`. -/
theorem unregister_storage_eq {V : Type} (cl : Client) (md : String → KeyMetaData)
    (storage : String → Option V) (k : String) :
    (Blackboard.unregister cl md storage true).2 k =
      if (k ∈ cl.read ∨ k ∈ cl.write) ∧
          ((Blackboard.unregister cl md storage true).1 k).read = [] ∧
          ((Blackboard.unregister cl md storage true).1 k).write = []
      then none else storage k := rfl

/-- Claim C7: for a (singly) registered client, `unregister` removes the
client's unique identifier from the read- and write-permission metadata of
every key in its read and write lists; with `clear = true`, every such key
whose metadata retains no permission holder is deleted from storage, while
keys with a remaining holder — and keys outside the client's lists — keep
their stored value. -/
theorem c7_unregister {V : Type} (cl : Client) (md : String → KeyMetaData)
    (storage : String → Option V)
    (hnr : cl.read.Nodup) (hnw : cl.write.Nodup)
    (hr1 : ∀ k ∈ cl.read, ((md k).read.count cl.unique_identifier) = 1)
    (hw1 : ∀ k ∈ cl.write, ((md k).write.count cl.unique_identifier) = 1) :
    (∀ k ∈ cl.read,
        cl.unique_identifier ∉ ((Blackboard.unregister cl md storage true).1 k).read) ∧
    (∀ k ∈ cl.write,
        cl.unique_identifier ∉ ((Blackboard.unregister cl md storage true).1 k).write) ∧
    (∀ k, (k ∈ cl.read ∨ k ∈ cl.write) →
      (((Blackboard.unregister cl md storage true).1 k).read = [] ∧
          ((Blackboard.unregister cl md storage true).1 k).write = [] →
        (Blackboard.unregister cl md storage true).2 k = none) ∧
      (¬(((Blackboard.unregister cl md storage true).1 k).read = [] ∧
          ((Blackboard.unregister cl md storage true).1 k).write = []) →
        (Blackboard.unregister cl md storage true).2 k = storage k)) ∧
    (∀ k, k ∉ cl.read → k ∉ cl.write →
        (Blackboard.unregister cl md storage true).2 k = storage k) := by
  refine ⟨?_, ?_, ?_, ?_⟩
  · intro k hk
    rw [unregister_md_eq cl md storage true hnr hnw k]
    simp only [hk, if_pos]
    have hz : ((md k).read.erase cl.unique_identifier).count cl.unique_identifier = 0 := by
      rw [List.count_erase_self, hr1 k hk]
    exact List.count_eq_zero.mp hz
  · intro k hk
    rw [unregister_md_eq cl md storage true hnr hnw k]
    simp only [hk, if_pos]
    have hz : ((md k).write.erase cl.unique_identifier).count cl.unique_identifier = 0 := by
      rw [List.count_erase_self, hw1 k hk]
    exact List.count_eq_zero.mp hz
  · intro k hk
    constructor
    · intro hempty
      rw [unregister_storage_eq cl md storage k]
      simp [hk, hempty.1, hempty.2]
    · intro hne
      rw [unregister_storage_eq cl md storage k]
      rw [if_neg]
      intro hcond
      exact hne ⟨hcond.2.1, hcond.2.2⟩
  · intro k hkr hkw
    rw [unregister_storage_eq cl md storage k]
    rw [if_neg]
    intro hcond
    rcases hcond.1 with h | h
    · exact hkr h
    · exact hkw h

/-- Witness for C7 at a concrete registered client: one client with id 3
holding read and write permission on key "goal"; after unregister with clear,
the id is gone from both lists and the value is deleted. -/
theorem c7_unregister_witness :
    (∀ k ∈ (["goal"] : List String), (3 : Nat) ∉
        ((Blackboard.unregister ⟨3, ["goal"], ["goal"]⟩
          (fun _ => ⟨[3], [3]⟩) (fun _ => some (1 : Nat)) true).1 k).read) ∧
    (Blackboard.unregister ⟨3, ["goal"], ["goal"]⟩
        (fun _ => ⟨[3], [3]⟩) (fun _ => some (1 : Nat)) true).2 "goal" = none := by
  have h := c7_unregister (V := Nat) ⟨3, ["goal"], ["goal"]⟩
    (fun _ => ⟨[3], [3]⟩) (fun _ => some (1 : Nat))
    (by simp) (by simp) (by intro k _; rfl) (by intro k _; rfl)
  refine ⟨h.1, (h.2.2.1 "goal" (Or.inl (by simp))).1 ?_⟩
  constructor <;> rfl

/-- Claim C9: registering appends the client id without a duplicate check, so
constructing the client twice records the id twice in the key's write
metadata; a single `unregister` (Python `list.remove`) deletes only one
occurrence, leaving the client still listed, and therefore
`unregister(clear=True)` does not delete the key's stored value. -/
theorem c9_duplicate_registration :
    (c9_metadata "dummy").write = [7, 7] ∧
    ((Blackboard.unregister c9_client c9_metadata c9_storage true).1 "dummy").write = [7] ∧
    (Blackboard.unregister c9_client c9_metadata c9_storage true).2 "dummy" = some 42 :=
  ⟨rfl, rfl, rfl⟩

/-- Claim C10: `CoverageVisitor.run` on a behaviour whose status is INVALID
increments that node's tick count but records nothing in `has_returned`;
`has_returned` only ever gains entries under RUNNING / SUCCESS / FAILURE, and
no `has_returned` or `times_ticked` entry is ever removed or decreased. -/
theorem c10_coverage_visitor (v : CoverageVisitor) (id : Nat) :
    (CoverageVisitor.run v id .INVALID).times_ticked id
        = some ((v.times_ticked id).getD 0 + 1) ∧
    (CoverageVisitor.run v id .INVALID).hasReturned = v.hasReturned ∧
    (∀ st s i, (CoverageVisitor.run v id st).hasReturned s i = true →
        v.hasReturned s i = true ∨ (st ≠ .INVALID ∧ s = st ∧ i = id)) ∧
    (∀ st s i, v.hasReturned s i = true →
        (CoverageVisitor.run v id st).hasReturned s i = true) ∧
    (∀ st i n, v.times_ticked i = some n →
        ∃ m, (CoverageVisitor.run v id st).times_ticked i = some m ∧ n ≤ m) := by
  refine ⟨by simp [CoverageVisitor.run], rfl, ?_, ?_, ?_⟩
  · intro st s i h
    by_cases hinv : st = Status.INVALID
    · subst hinv
      exact Or.inl h
    · simp only [CoverageVisitor.run, if_neg hinv] at h
      by_cases hc : s = st ∧ i = id
      · exact Or.inr ⟨hinv, hc.1, hc.2⟩
      · rw [if_neg hc] at h
        exact Or.inl h
  · intro st s i h
    by_cases hinv : st = Status.INVALID
    · subst hinv
      exact h
    · simp only [CoverageVisitor.run, if_neg hinv]
      by_cases hc : s = st ∧ i = id
      · rw [if_pos hc]
      · rw [if_neg hc]
        exact h
  · intro st i n h
    by_cases hi : i = id
    · subst hi
      refine ⟨(v.times_ticked i).getD 0 + 1, by simp [CoverageVisitor.run], ?_⟩
      rw [h]
      simp
    · exact ⟨n, by simp [CoverageVisitor.run, hi, h], le_refl n⟩

/-- Witness for C10 at the empty visitor and node id 5. -/
theorem c10_coverage_visitor_witness :
    (CoverageVisitor.run CoverageVisitor.empty 5 .INVALID).times_ticked 5 = some 1 ∧
    (CoverageVisitor.run CoverageVisitor.empty 5 .INVALID).hasReturned
        = CoverageVisitor.empty.hasReturned :=
  ⟨(c10_coverage_visitor CoverageVisitor.empty 5).1,
   (c10_coverage_visitor CoverageVisitor.empty 5).2.1⟩

/-- Claim C1 counterexample: the claim asserts a `get` on a key outside the
client's read set fails with the permission error (ValueError) regardless of
whether the key exists; but for a client with an empty read set and a key
absent from storage, `__getattr__` fails with AttributeError (key-not-found),
because storage is consulted before the permission check. -/
theorem c1_counterexample :
    "k" ∉ (⟨0, [], []⟩ : Client).read ∧
    Blackboard.getattr (V := Nat) ⟨0, [], []⟩ (fun _ => none) "k"
        = .error .attributeError ∧
    (Except.error BB2Error.attributeError : Except BB2Error Nat)
        ≠ .error .valueError := by
  refine ⟨by simp, rfl, by simp⟩

/-- Claim C1 (amended): `set` on a key outside the client's write set fails
with ValueError regardless of whether the key is present; `get` on a key
outside the client's read set fails with ValueError when the key is present in
storage, but fails with AttributeError (key-not-found) when the key is absent
— for any client — since `__getattr__` consults storage before permissions. -/
theorem c1_permission_boundary {V : Type} (cl : Client) (storage : String → Option V)
    (k : String) (v : V) :
    (k ∉ cl.write → ∀ ow value, Blackboard.set cl storage k value ow = .error .valueError) ∧
    (k ∉ cl.read → storage k = some v → Blackboard.getattr cl storage k = .error .valueError) ∧
    (storage k = none → Blackboard.getattr cl storage k = .error .attributeError) := by
  refine ⟨?_, ?_, ?_⟩
  · intro hw ow value
    simp [Blackboard.set, hw]
  · intro hr hs
    simp [Blackboard.getattr, hs, hr]
  · intro hs
    simp [Blackboard.getattr, hs]

/-- Witness for the amended C1 at concrete clients and keys. -/
theorem c1_permission_boundary_witness :
    Blackboard.set (V := Nat) ⟨0, ["p"], []⟩ (fun _ => some 1) "p" 2 true
        = .error .valueError ∧
    Blackboard.getattr (V := Nat) ⟨0, [], ["p"]⟩ (fun _ => some 1) "p"
        = .error .valueError ∧
    Blackboard.getattr (V := Nat) ⟨0, [], []⟩ (fun _ => none) "p"
        = .error .attributeError :=
  ⟨(c1_permission_boundary (V := Nat) ⟨0, ["p"], []⟩ (fun _ => some 1) "p" 1).1
      (by simp) true 2,
   (c1_permission_boundary (V := Nat) ⟨0, [], ["p"]⟩ (fun _ => some 1) "p" 1).2.1
      (by simp) rfl,
   (c1_permission_boundary (V := Nat) ⟨0, [], []⟩ (fun _ => none) "p" 1).2.2 rfl⟩

/-- Claim C6: for a client with both read and write permission on a key,
`set(client, k, v, overwrite=true)` succeeds (returning `true`) and an
immediately following `get(client, k)` returns exactly `v`. -/
theorem c6_roundtrip {V : Type} (cl : Client) (storage : String → Option V)
    (k : String) (v : V) (hr : k ∈ cl.read) (hw : k ∈ cl.write) :
    ∃ storage', Blackboard.set cl storage k v true = .ok (storage', true) ∧
      Blackboard.getMethod cl storage' k = .ok v := by
  refine ⟨fun x => if x = k then some v else storage x, ?_, ?_⟩
  · simp [Blackboard.set, Blackboard.setattr, hw, Except.map]
  · simp [Blackboard.getMethod, Blackboard.getattr, hr]

/-- Witness for C6 at a concrete client, key and value. -/
theorem c6_roundtrip_witness :
    ∃ storage', Blackboard.set (V := Nat) ⟨0, ["k"], ["k"]⟩ (fun _ => none) "k" 7 true
        = .ok (storage', true) ∧
      Blackboard.getMethod ⟨0, ["k"], ["k"]⟩ storage' "k" = .ok 7 :=
  c6_roundtrip ⟨0, ["k"], ["k"]⟩ (fun _ => none) "k" 7 (by simp) (by simp)

/-- Characterisation of `CheckBlackboardVariable.update` when no result is
cached and the client can read its variable: the outcome is a function of the
resolved value, the expected value and the comparison. -/
theorem check_update_eq {V : Type} (cmp : V → V → Bool)
    (attrget : V → String → Option V) (storage : String → Option V)
    (c : CheckBlackboardVariable V)
    (hc : c.variable_name ∈ c.read) (hm : c.matching_result = none) :
    CheckBlackboardVariable.update cmp attrget storage c =
      match resolveValue attrget storage c.variable_name c.nested_name with
      | none => .ok (.FAILURE, c.cacheState .FAILURE)
      | some v' =>
        match c.expected_value with
        | none => .ok (.SUCCESS, c.cacheState .SUCCESS)
        | some e =>
          if cmp v' e then .ok (.SUCCESS, c.cacheState .SUCCESS)
          else .ok (.FAILURE, c.cacheState .FAILURE) := by
  cases hs : storage c.variable_name with
  | none =>
    simp [CheckBlackboardVariable.update, hm, ClientBlackboard.get, hc, hs, resolveValue]
  | some v =>
    simp [CheckBlackboardVariable.update, hm, ClientBlackboard.get, hc, hs, resolveValue]

/-- Characterisation of `WaitForBlackboardVariable.update` when no result is
cached and the client can read its variable. -/
theorem wait_update_eq {V : Type} (cmp : V → V → Bool)
    (attrget : V → String → Option V) (storage : String → Option V)
    (w : WaitForBlackboardVariable V)
    (hc : w.variable_name ∈ w.read) (hm : w.matching_result = none) :
    WaitForBlackboardVariable.update cmp attrget storage w =
      match resolveValue attrget storage w.variable_name w.nested_name with
      | none => .ok (.RUNNING, w.cacheState .RUNNING)
      | some v' =>
        match w.expected_value with
        | none => .ok (.SUCCESS, w.cacheState .SUCCESS)
        | some e =>
          if cmp v' e then .ok (.SUCCESS, w.cacheState .SUCCESS)
          else .ok (.RUNNING, w.cacheState .RUNNING) := by
  cases hs : storage w.variable_name with
  | none =>
    simp [WaitForBlackboardVariable.update, hm, ClientBlackboard.get, hc, hs, resolveValue]
  | some v =>
    simp [WaitForBlackboardVariable.update, hm, ClientBlackboard.get, hc, hs, resolveValue]

/-- With a cached result, `update` returns it and changes nothing — no
blackboard read is performed. -/
theorem check_update_cached {V : Type} (cmp : V → V → Bool)
    (attrget : V → String → Option V) (storage : String → Option V)
    (c : CheckBlackboardVariable V) (r : Status) (h : c.matching_result = some r) :
    CheckBlackboardVariable.update cmp attrget storage c = .ok (r, c) := by
  simp [CheckBlackboardVariable.update, h]

/-- After an update that returns SUCCESS under clearing policy NEVER, the
node holds SUCCESS in its cache and keeps policy NEVER. -/
theorem check_update_success_never {V : Type} {cmp : V → V → Bool}
    {attrget : V → String → Option V} {storage : String → Option V}
    {c c' : CheckBlackboardVariable V}
    (hp : c.clearing_policy = .NEVER)
    (hu : CheckBlackboardVariable.update cmp attrget storage c = .ok (.SUCCESS, c')) :
    c'.matching_result = some .SUCCESS ∧ c'.clearing_policy = .NEVER := by
  cases hm : c.matching_result with
  | some r =>
    rw [check_update_cached cmp attrget storage c r hm] at hu
    simp only [Except.ok.injEq, Prod.mk.injEq] at hu
    rcases hu with ⟨hr, rfl⟩
    rw [hm, hr]
    exact ⟨rfl, hp⟩
  | none =>
    by_cases hcr : c.variable_name ∈ c.read
    · rw [check_update_eq cmp attrget storage c hcr hm] at hu
      cases hres : resolveValue attrget storage c.variable_name c.nested_name with
      | none =>
        rw [hres] at hu
        simp at hu
      | some v' =>
        simp only [hres] at hu
        cases he : c.expected_value with
        | none =>
          simp only [he, Except.ok.injEq, Prod.mk.injEq] at hu
          rcases hu with ⟨_, rfl⟩
          simp [CheckBlackboardVariable.cacheState, hp]
        | some e =>
          simp only [he] at hu
          by_cases hcmp : cmp v' e = true
          · rw [if_pos hcmp] at hu
            simp only [Except.ok.injEq, Prod.mk.injEq] at hu
            rcases hu with ⟨_, rfl⟩
            simp [CheckBlackboardVariable.cacheState, hp]
          · rw [if_neg hcmp] at hu
            simp at hu
    · have herr : CheckBlackboardVariable.update cmp attrget storage c
          = .error .permissionError := by
        simp [CheckBlackboardVariable.update, hm, ClientBlackboard.get, hcr]
      rw [herr] at hu
      exact absurd hu (by simp)

/-- A node with a cached SUCCESS under policy NEVER is a fixed point of any
sequence of update and initialise calls. -/
theorem check_runCalls_fixed {V : Type} (cmp : V → V → Bool)
    (attrget : V → String → Option V) (calls : List (CheckCall V))
    (c : CheckBlackboardVariable V)
    (hp : c.clearing_policy = .NEVER) (hm : c.matching_result = some .SUCCESS) :
    CheckBlackboardVariable.runCalls cmp attrget calls c = c := by
  induction calls with
  | nil => rfl
  | cons call rest ih =>
    cases call with
    | update storage =>
      simp only [CheckBlackboardVariable.runCalls]
      rw [check_update_cached cmp attrget storage c _ hm]
      exact ih
    | initialise =>
      simp only [CheckBlackboardVariable.runCalls]
      have hini : c.initialise = c := by
        simp [CheckBlackboardVariable.initialise, hp]
      rw [hini]
      exact ih

/-- Claim C3: for a `CheckBlackboardVariable` with clearing policy NEVER, once
an update call returns SUCCESS, every subsequent update call — under any
interleaving of further updates (against arbitrary, possibly changed or
deleted blackboard contents) and initialise calls — returns SUCCESS with the
node unchanged; and `terminate(INVALID)` clears the cached result. -/
theorem c3_clearing_policy_never {V : Type} (cmp : V → V → Bool)
    (attrget : V → String → Option V) (storage0 : String → Option V)
    (c c' : CheckBlackboardVariable V)
    (hp : c.clearing_policy = .NEVER)
    (hu : CheckBlackboardVariable.update cmp attrget storage0 c = .ok (.SUCCESS, c')) :
    (∀ calls : List (CheckCall V),
      CheckBlackboardVariable.runCalls cmp attrget calls c' = c' ∧
      ∀ storage, CheckBlackboardVariable.update cmp attrget storage
          (CheckBlackboardVariable.runCalls cmp attrget calls c')
        = .ok (.SUCCESS, c')) ∧
    ∀ d : CheckBlackboardVariable V,
      (CheckBlackboardVariable.terminate .INVALID d).matching_result = none := by
  obtain ⟨hm', hp'⟩ := check_update_success_never hp hu
  refine ⟨?_, ?_⟩
  · intro calls
    have hfix := check_runCalls_fixed cmp attrget calls c' hp' hm'
    refine ⟨hfix, ?_⟩
    intro storage
    rw [hfix]
    exact check_update_cached cmp attrget storage c' _ hm'
  · intro d
    simp [CheckBlackboardVariable.terminate]

/-- Witness for C3: a concrete NEVER-policy check on key "flag" matches once,
then an update against a blackboard from which "flag" was deleted still
returns SUCCESS, and terminate(INVALID) clears the cache. -/
theorem c3_clearing_policy_never_witness :
    (CheckBlackboardVariable.runCalls (fun a b : Nat => a == b) (fun _ _ => none)
        [CheckCall.update (fun _ => none)]
        ⟨"flag", "", ["flag"], some 1, some .SUCCESS, .NEVER⟩
      = ⟨"flag", "", ["flag"], some 1, some .SUCCESS, .NEVER⟩) ∧
    (CheckBlackboardVariable.update (fun a b : Nat => a == b) (fun _ _ => none)
        (fun _ => none) ⟨"flag", "", ["flag"], some 1, some .SUCCESS, .NEVER⟩
      = .ok (.SUCCESS, ⟨"flag", "", ["flag"], some 1, some .SUCCESS, .NEVER⟩)) ∧
    (CheckBlackboardVariable.terminate .INVALID
        (⟨"flag", "", ["flag"], some 1, some .SUCCESS, .NEVER⟩ :
          CheckBlackboardVariable Nat)).matching_result = none := by
  have h := c3_clearing_policy_never (fun a b : Nat => a == b) (fun _ _ => none)
    (fun k => if k = "flag" then some 1 else none)
    ⟨"flag", "", ["flag"], some 1, none, .NEVER⟩
    ⟨"flag", "", ["flag"], some 1, some .SUCCESS, .NEVER⟩ rfl (by rfl)
  have h1 := h.1 [CheckCall.update (fun _ => none)]
  have h2 := h.1 []
  exact ⟨h1.1, h2.2 (fun _ => none), h.2 _⟩

/-- Claim C4: for `CheckBlackboardVariable` and `WaitForBlackboardVariable`
whose client holds read permission on the watched variable (as construction
guarantees), `update` never surfaces an error: it always returns a status, and
— when no result is cached — a missing variable or dотted sub-field, or a
failed comparison, yields FAILURE for the check behaviour and RUNNING for the
wait behaviour. -/
theorem c4_no_error_escape {V : Type} (cmp : V → V → Bool)
    (attrget : V → String → Option V) (storage : String → Option V)
    (c : CheckBlackboardVariable V) (w : WaitForBlackboardVariable V)
    (hc : c.variable_name ∈ c.read) (hw : w.variable_name ∈ w.read) :
    (∃ out, CheckBlackboardVariable.update cmp attrget storage c = .ok out) ∧
    (∃ out, WaitForBlackboardVariable.update cmp attrget storage w = .ok out) ∧
    (c.matching_result = none →
      resolveValue attrget storage c.variable_name c.nested_name = none →
      ∃ c', CheckBlackboardVariable.update cmp attrget storage c = .ok (.FAILURE, c')) ∧
    (c.matching_result = none →
      ∀ v e, resolveValue attrget storage c.variable_name c.nested_name = some v →
        c.expected_value = some e → cmp v e = false →
        ∃ c', CheckBlackboardVariable.update cmp attrget storage c = .ok (.FAILURE, c')) ∧
    (w.matching_result = none →
      resolveValue attrget storage w.variable_name w.nested_name = none →
      ∃ w', WaitForBlackboardVariable.update cmp attrget storage w = .ok (.RUNNING, w')) ∧
    (w.matching_result = none →
      ∀ v e, resolveValue attrget storage w.variable_name w.nested_name = some v →
        w.expected_value = some e → cmp v e = false →
        ∃ w', WaitForBlackboardVariable.update cmp attrget storage w = .ok (.RUNNING, w')) := by
  refine ⟨?_, ?_, ?_, ?_, ?_, ?_⟩
  · cases hm : c.matching_result with
    | some r => exact ⟨(r, c), check_update_cached cmp attrget storage c r hm⟩
    | none =>
      rw [check_update_eq cmp attrget storage c hc hm]
      cases hres : resolveValue attrget storage c.variable_name c.nested_name with
      | none => simp only [hres]; exact ⟨_, rfl⟩
      | some v' =>
        simp only [hres]
        cases he : c.expected_value with
        | none => simp only [he]; exact ⟨_, rfl⟩
        | some e =>
          simp only [he]
          by_cases hcmp : cmp v' e = true
          · rw [if_pos hcmp]; exact ⟨_, rfl⟩
          · rw [if_neg hcmp]; exact ⟨_, rfl⟩
  · cases hm : w.matching_result with
    | some r => exact ⟨(r, w), by simp [WaitForBlackboardVariable.update, hm]⟩
    | none =>
      rw [wait_update_eq cmp attrget storage w hw hm]
      cases hres : resolveValue attrget storage w.variable_name w.nested_name with
      | none => simp only [hres]; exact ⟨_, rfl⟩
      | some v' =>
        simp only [hres]
        cases he : w.expected_value with
        | none => simp only [he]; exact ⟨_, rfl⟩
        | some e =>
          simp only [he]
          by_cases hcmp : cmp v' e = true
          · rw [if_pos hcmp]; exact ⟨_, rfl⟩
          · rw [if_neg hcmp]; exact ⟨_, rfl⟩
  · intro hm hres
    rw [check_update_eq cmp attrget storage c hc hm]
    simp only [hres]
    exact ⟨_, rfl⟩
  · intro hm v e hres he hcmp
    rw [check_update_eq cmp attrget storage c hc hm]
    simp only [hres, he, hcmp]
    exact ⟨c.cacheState .FAILURE, by simp⟩
  · intro hm hres
    rw [wait_update_eq cmp attrget storage w hw hm]
    simp only [hres]
    exact ⟨_, rfl⟩
  · intro hm v e hres he hcmp
    rw [wait_update_eq cmp attrget storage w hw hm]
    simp only [hres, he, hcmp]
    exact ⟨w.cacheState .RUNNING, by simp⟩

/-- Witness for C4 at a concrete check and wait node on key "k" with the
variable absent from the blackboard. -/
theorem c4_no_error_escape_witness :
    (∃ out, CheckBlackboardVariable.update (fun a b : Nat => a == b) (fun _ _ => none)
        (fun _ => none) ⟨"k", "", ["k"], none, none, .ON_INITIALISE⟩ = .ok out) ∧
    (∃ c', CheckBlackboardVariable.update (fun a b : Nat => a == b) (fun _ _ => none)
        (fun _ => none) ⟨"k", "", ["k"], none, none, .ON_INITIALISE⟩
      = .ok (.FAILURE, c')) ∧
    (∃ w', WaitForBlackboardVariable.update (fun a b : Nat => a == b) (fun _ _ => none)
        (fun _ => none) ⟨"k", "", ["k"], none, none, .ON_INITIALISE⟩
      = .ok (.RUNNING, w')) := by
  have h := c4_no_error_escape (fun a b : Nat => a == b) (fun _ _ => none)
    (fun _ => none) ⟨"k", "", ["k"], none, none, .ON_INITIALISE⟩
    ⟨"k", "", ["k"], none, none, .ON_INITIALISE⟩ (by simp) (by simp)
  exact ⟨h.1, h.2.2.1 rfl rfl, h.2.2.2.2.1 rfl rfl⟩

/-- Claim C8: with a non-None cached `matching_result`, `update` returns the
cached result with the node unchanged, and the outcome is independent of the
blackboard contents — in particular deleting the underlying variable after a
match was cached does not change the returned status. -/
theorem c8_cached_result_masks_deletion {V : Type} (cmp : V → V → Bool)
    (attrget : V → String → Option V) (c : CheckBlackboardVariable V) (r : Status)
    (h : c.matching_result = some r)
    (storage storageAfterDeletion : String → Option V) :
    CheckBlackboardVariable.update cmp attrget storage c = .ok (r, c) ∧
    CheckBlackboardVariable.update cmp attrget storageAfterDeletion c
      = CheckBlackboardVariable.update cmp attrget storage c := by
  refine ⟨check_update_cached cmp attrget storage c r h, ?_⟩
  rw [check_update_cached cmp attrget storage c r h,
    check_update_cached cmp attrget storageAfterDeletion c r h]

/-- Witness for C8: a cached SUCCESS on key "flag" is returned even against an
empty blackboard. -/
theorem c8_cached_result_masks_deletion_witness :
    CheckBlackboardVariable.update (fun a b : Nat => a == b) (fun _ _ => none)
        (fun _ => none) ⟨"flag", "", ["flag"], some 1, some .SUCCESS, .ON_INITIALISE⟩
      = .ok (.SUCCESS, ⟨"flag", "", ["flag"], some 1, some .SUCCESS, .ON_INITIALISE⟩) :=
  (c8_cached_result_masks_deletion (fun a b : Nat => a == b) (fun _ _ => none)
    ⟨"flag", "", ["flag"], some 1, some .SUCCESS, .ON_INITIALISE⟩ .SUCCESS rfl
    (fun _ => none) (fun _ => none)).1

/-- A disabled injector around a SUCCESS leaf ticks to SUCCESS and keeps its
leaf's base status. -/
theorem injNode_disabled_tick_success (randDraw : Status) (inj : InjNode)
    (hb : inj.decorated.base = .SUCCESS) :
    (InjNode.tick1 (some false) randDraw inj).status = .SUCCESS ∧
    (InjNode.tick1 (some false) randDraw inj).decorated.base = .SUCCESS := by
  constructor <;>
    simp [InjNode.tick1, TestInjector.tick, TestInjector.override_enabled,
      TestInjector.update, Leaf.tick, hb]

/-- Iterated form of `injNode_disabled_tick_success`. -/
theorem injNode_disabled_tickN_success (randDraw : Status) :
    ∀ (n : Nat) (inj : InjNode), inj.decorated.base = .SUCCESS →
      (InjNode.tickN (some false) randDraw (n + 1) inj).status = .SUCCESS := by
  intro n
  induction n with
  | zero =>
    intro inj hb
    exact (injNode_disabled_tick_success randDraw inj hb).1
  | succ n ih =>
    intro inj hb
    exact ih _ (injNode_disabled_tick_success randDraw inj hb).2

/-- Claim C5: with the global enable flag false, a TestInjector around a
SUCCESS leaf returns SUCCESS on every tick; with the flag true and
`fixed_override = FAILURE`, one tick returns FAILURE for every possible
wrapped child — the child is left untouched and is not even ticked, so its
status has no influence on the result. -/
theorem c5_injector_determinism :
    (∀ (randDraw : Status) (inj : InjNode), inj.decorated.base = .SUCCESS →
      ∀ n : Nat, (InjNode.tickN (some false) randDraw (n + 1) inj).status = .SUCCESS) ∧
    (∀ (χ : Type) (childTick : χ → χ × Status) (randDraw : Status) (inj : Injector χ),
      inj.fixed_override = some .FAILURE →
      (TestInjector.tick (some true) randDraw childTick inj).1.status = .FAILURE ∧
      (TestInjector.tick (some true) randDraw childTick inj).1.decorated = inj.decorated ∧
      (TestInjector.tick (some true) randDraw childTick inj).2 = false) := by
  constructor
  · intro randDraw inj hb n
    exact injNode_disabled_tickN_success randDraw n inj hb
  · intro χ childTick randDraw inj hf
    have hen : TestInjector.override_enabled (some true) inj = true := by
      simp [TestInjector.override_enabled, hf]
    refine ⟨?_, ?_, ?_⟩ <;>
      simp [TestInjector.tick, hen, TestInjector.update, hf]

/-- Witness for C5 at concrete injectors. -/
theorem c5_injector_determinism_witness :
    (InjNode.tickN (some false) .SUCCESS 1 (InjNode.fresh .SUCCESS)).status = .SUCCESS ∧
    (TestInjector.tick (some true) .SUCCESS Leaf.tick
        (TestInjector.set_override .FAILURE (InjNode.fresh .SUCCESS))).1.status
      = .FAILURE :=
  ⟨c5_injector_determinism.1 .SUCCESS (InjNode.fresh .SUCCESS) rfl 0,
   (c5_injector_determinism.2 Leaf Leaf.tick .SUCCESS
      (TestInjector.set_override .FAILURE (InjNode.fresh .SUCCESS)) rfl).1⟩

/-- Every entry of the `seqChildren` log carries an index at least the start
index. -/
theorem seqChildren_log_ge (globalFlag : Option Bool) (randDraw : Status) :
    ∀ (L : List InjNode) (idx : Nat) (p : Nat × Status),
      p ∈ (seqChildren globalFlag randDraw idx L).2.2.2 → idx ≤ p.1 := by
  intro L
  induction L with
  | nil =>
    intro idx p h
    simp [seqChildren] at h
  | cons n rest ih =>
    intro idx p h
    simp only [seqChildren] at h
    cases hst : (TestInjector.tick globalFlag randDraw Leaf.tick n).1.status with
    | RUNNING =>
      simp only [hst, List.mem_singleton] at h
      simp [h]
    | FAILURE =>
      simp only [hst, List.mem_singleton] at h
      simp [h]
    | SUCCESS =>
      simp only [hst, List.mem_cons] at h
      rcases h with h | h
      · simp [h]
      · exact le_trans (Nat.le_succ idx) (ih (idx + 1) p h)
    | INVALID =>
      simp only [hst, List.mem_cons] at h
      rcases h with h | h
      · simp [h]
      · exact le_trans (Nat.le_succ idx) (ih (idx + 1) p h)

/-- A FAILURE entry in the `seqChildren` log ends the loop: every entry's
index is at most the FAILURE entry's index. -/
theorem seqChildren_failure_last (globalFlag : Option Bool) (randDraw : Status) :
    ∀ (L : List InjNode) (idx j : Nat),
      (j, Status.FAILURE) ∈ (seqChildren globalFlag randDraw idx L).2.2.2 →
      ∀ p ∈ (seqChildren globalFlag randDraw idx L).2.2.2, p.1 ≤ j := by
  intro L
  induction L with
  | nil =>
    intro idx j hj
    simp [seqChildren] at hj
  | cons n rest ih =>
    intro idx j hj p hp
    simp only [seqChildren] at hj hp
    cases hst : (TestInjector.tick globalFlag randDraw Leaf.tick n).1.status with
    | RUNNING =>
      simp only [hst, List.mem_singleton, Prod.mk.injEq] at hj
      exact absurd hj.2 (by simp)
    | FAILURE =>
      simp only [hst, List.mem_singleton, Prod.mk.injEq] at hj hp
      obtain ⟨hj1, -⟩ := hj
      subst hp
      show idx ≤ j
      omega
    | SUCCESS =>
      simp only [hst, List.mem_cons] at hj hp
      rcases hj with hj | hj
      · exact absurd hj (by simp)
      · have hjge : idx + 1 ≤ j :=
          seqChildren_log_ge globalFlag randDraw rest (idx + 1) (j, .FAILURE) hj
        rcases hp with hp | hp
        · subst hp
          show idx ≤ j
          omega
        · exact ih (idx + 1) j hj p hp
    | INVALID =>
      simp only [hst, List.mem_cons] at hj hp
      rcases hj with hj | hj
      · exact absurd hj (by simp)
      · have hjge : idx + 1 ≤ j :=
          seqChildren_log_ge globalFlag randDraw rest (idx + 1) (j, .FAILURE) hj
        rcases hp with hp | hp
        · subst hp
          show idx ≤ j
          omega
        · exact ih (idx + 1) j hj p hp

/-- A disabled tick takes the scenario start state to the blocked state and
keeps the blocked state fixed. -/
theorem c2_tick_disabled (globalFlag : Option Bool) (randDraw : Status)
    (hg : globalFlag ≠ some true) :
    (SeqState.tick globalFlag randDraw c2Start).1 = c2Blocked ∧
    (SeqState.tick globalFlag randDraw c2Blocked).1 = c2Blocked := by
  rcases globalFlag with _ | b
  · exact ⟨rfl, rfl⟩
  · cases b
    · exact ⟨rfl, rfl⟩
    · exact absurd rfl hg

/-- The blocked state is a fixed point of any number of disabled ticks. -/
theorem c2_tickN_blocked (globalFlag : Option Bool) (randDraw : Status)
    (hg : globalFlag ≠ some true) :
    ∀ n, SeqState.tickN globalFlag randDraw n c2Blocked = c2Blocked := by
  intro n
  induction n with
  | zero => rfl
  | succ n ih =>
    simp only [SeqState.tickN]
    rw [(c2_tick_disabled globalFlag randDraw hg).2]
    exact ih

/-- Claim C2: for the Sequence of five TestInjector-wrapped leaves with base
statuses [SUCCESS, SUCCESS, RUNNING, FAILURE, SUCCESS]: while injection is
disabled (global flag unset or false) every tick yields tree status RUNNING,
blocked at leaf 3 (cursor 2); once leaf 3's injector is overridden to SUCCESS
and injection is enabled, the next tick yields FAILURE, having ticked exactly
leaf 3 (SUCCESS) and leaf 4 (FAILURE); and on any tick of any state in which
child 4 (index 3) returns FAILURE, child 5 (index 4) is absent from the tick's
log, i.e. leaf 5 is never ticked. -/
theorem c2_scenario :
    (∀ (globalFlag : Option Bool) (randDraw : Status), globalFlag ≠ some true →
      ∀ n : Nat, SeqState.tickN globalFlag randDraw (n + 1) c2Start = c2Blocked) ∧
    c2Blocked.status = .RUNNING ∧
    c2Blocked.cursor = 2 ∧
    (∀ randDraw : Status,
      (SeqState.tick (some true) randDraw c2Overridden).1.status = .FAILURE ∧
      (SeqState.tick (some true) randDraw c2Overridden).2
        = [(2, .SUCCESS), (3, .FAILURE)]) ∧
    (∀ (globalFlag : Option Bool) (randDraw : Status) (s : SeqState) (st : Status),
      (3, Status.FAILURE) ∈ (SeqState.tick globalFlag randDraw s).2 →
      (4, st) ∉ (SeqState.tick globalFlag randDraw s).2) := by
  refine ⟨?_, rfl, rfl, ?_, ?_⟩
  · intro globalFlag randDraw hg n
    simp only [SeqState.tickN]
    rw [(c2_tick_disabled globalFlag randDraw hg).1]
    exact c2_tickN_blocked globalFlag randDraw hg n
  · intro randDraw
    exact ⟨rfl, rfl⟩
  · intro globalFlag randDraw s st h3 h4
    have hle := seqChildren_failure_last globalFlag randDraw
      (s.leaves.drop (if s.status = .RUNNING then s.cursor else 0))
      (if s.status = .RUNNING then s.cursor else 0) 3 h3 (4, st) h4
    omega

/-- Witness for C2: the first disabled tick (flag never set) blocks the tree
RUNNING at leaf 3, and the enabled tick after the override fails. -/
theorem c2_scenario_witness :
    SeqState.tickN none .SUCCESS 1 c2Start = c2Blocked ∧
    (SeqState.tick (some true) .SUCCESS c2Overridden).1.status = .FAILURE :=
  ⟨c2_scenario.1 none .SUCCESS (by simp) 0, (c2_scenario.2.2.2.1 .SUCCESS).1⟩
